import Mathlib

/-
Verification development for the railway-navigation-app repository.

The development shallowly embeds the route materializer, the walk
simulator and the geometry helpers of the application.  JavaScript
numbers are modelled as real numbers; JavaScript objects holding an
optional field are modelled with Option.  The station topology table
is transcribed verbatim from src/lib/station-data.ts, and the
materializer / simulator are transcribed from
src/components/station-map.tsx.  Where the JavaScript code mutates the
shared point objects of the global topology table in place, the
embedding models the final value stored in each object (the value
written by the last assignment to it) and, separately, the updated
table as a whole.
-/

/-- Geographic coordinate, as the plain-object literal used by the app. -/
@[ext]
structure LatLng where
  lat : ℝ
  lng : ℝ

/-- The four kinds of StationPoint (field "type" in station-data.ts). -/
inductive PointType where
  | gate
  | platform
  | poi
  | path_node
deriving DecidableEq

/-- StationPoint of src/lib/station-data.ts.  The name field is optional
because two raw points of the table omit it; latLng is optional exactly as
in the TypeScript interface, and cumulativeDistance is the transient
annotation written by the route materializer. -/
structure StationPoint where
  id : String
  name : Option String
  type : PointType
  x : ℝ
  y : ℝ
  latLng : Option LatLng
  cumulativeDistance : Option ℝ

/-- PathInstruction of src/lib/station-data.ts.  The field "from" of the
source is spelled from_ because "from" is a Lean keyword. -/
structure PathInstruction where
  id : String
  text : String
  hindiText : String
  from_ : String
  to_ : String
  path_nodes : Option (List String)
  distance : Option ℝ
  cumulativeDistanceToTarget : Option ℝ

/-- StationLayout of src/lib/station-data.ts: the point table plus the
route table keyed by "gateId-platformId" strings. -/
structure StationLayout where
  points : List StationPoint
  paths : List (String × List PathInstruction)

/-- The two language tags of the app ("en-US" and "hi-IN").  The source
calls this type Language; that name is taken in Mathlib. -/
inductive VoiceLanguage where
  | enUS
  | hiIN
deriving DecidableEq

/- ------------------------------------------------------------------
   Geometry utilities (src/lib/station-data.ts lines 418-433 and
   src/components/station-map.tsx lines 248-261).
   ------------------------------------------------------------------ -/

/-- getDistanceBetweenPoints of src/lib/station-data.ts: Euclidean
distance over the planar x,y offsets. -/
noncomputable def getDistanceBetweenPoints (p1 p2 : StationPoint) : ℝ :=
  Real.sqrt ((p2.x - p1.x) * (p2.x - p1.x) + (p2.y - p1.y) * (p2.y - p1.y))

/-- getIntermediateLatLng of src/lib/station-data.ts: linear
interpolation between two coordinates.  The second source parameter is
named "end", a Lean keyword, hence end_ here. -/
def getIntermediateLatLng (start end_ : LatLng) (fraction : ℝ) : LatLng :=
  { lat := start.lat + (end_.lat - start.lat) * fraction
    lng := start.lng + (end_.lng - start.lng) * fraction }

/-- Degrees to radians, the toRadians closure of calculateBearing. -/
noncomputable def toRadians (deg : ℝ) : ℝ := deg * Real.pi / 180

/-- Radians to degrees, the toDegrees closure of calculateBearing. -/
noncomputable def toDegrees (rad : ℝ) : ℝ := rad * 180 / Real.pi

/-- Math.atan2(y, x), modelled by the argument of the complex number
x + y*i, which has the same value and the same range (-pi, pi]. -/
noncomputable def atan2 (y x : ℝ) : ℝ := Complex.arg ⟨x, y⟩

/-- The JavaScript % operator on numbers: remainder truncated toward
zero, a - b * trunc(a / b). -/
noncomputable def jsRem (a b : ℝ) : ℝ :=
  a - b * ((if 0 ≤ a / b then ⌊a / b⌋ else ⌈a / b⌉ : ℤ) : ℝ)

/-- calculateBearing of src/components/station-map.tsx: great-circle
initial bearing from point 1 to point 2 in degrees, normalized with
(toDegrees(theta) + 360) % 360. -/
noncomputable def calculateBearing (lat1 lng1 lat2 lng2 : ℝ) : ℝ :=
  let φ1 := toRadians lat1
  let φ2 := toRadians lat2
  let Δlng2lng1 := toRadians (lng2 - lng1)
  let y := Real.sin Δlng2lng1 * Real.cos φ2
  let x := Real.cos φ1 * Real.sin φ2 - Real.sin φ1 * Real.cos φ2 * Real.cos Δlng2lng1
  let θ := atan2 y x
  jsRem (toDegrees θ + 360) 360

/- ------------------------------------------------------------------
   Station topology table (src/lib/station-data.ts lines 3-82).
   ------------------------------------------------------------------ -/

/-- STATION_CENTER_LAT of src/lib/station-data.ts. -/
def STATION_CENTER_LAT : ℝ := 28.6435

/-- STATION_CENTER_LNG of src/lib/station-data.ts. -/
def STATION_CENTER_LNG : ℝ := 77.2222

/-- getLatLngFromOffset of src/lib/station-data.ts, including the
misplaced parenthesis of the source: the longitude conversion divides
by cos(STATION_CENTER_LAT * pi) / 180, not by cos(... * pi / 180). -/
noncomputable def getLatLngFromOffset (xOffset yOffset : ℝ) : LatLng :=
  let latConv : ℝ := 1 / 111000
  let lngConv : ℝ := 1 / (111000 * Real.cos (STATION_CENTER_LAT * Real.pi) / 180)
  { lat := STATION_CENTER_LAT + yOffset * latConv * (-1)
    lng := STATION_CENTER_LNG + xOffset * lngConv }

/-- Raw point "gate-a" of rawStationPoints. -/
def gate_a : StationPoint :=
  ⟨"gate-a", some "Entry Gate A", .gate, 50, 250, none, none⟩

/-- Raw point "gate-b" of rawStationPoints. -/
def gate_b : StationPoint :=
  ⟨"gate-b", some "Entry Gate B", .gate, 450, 250, none, none⟩

/-- Raw point "platform-1" of rawStationPoints. -/
def platform_1 : StationPoint :=
  ⟨"platform-1", some "Platform 1", .platform, 250, 50, none, none⟩

/-- Raw point "platform-2" of rawStationPoints. -/
def platform_2 : StationPoint :=
  ⟨"platform-2", some "Platform 2", .platform, 250, 100, none, none⟩

/-- Raw point "platform-3" of rawStationPoints. -/
def platform_3 : StationPoint :=
  ⟨"platform-3", some "Platform 3", .platform, 250, 150, none, none⟩

/-- Raw point "platform-4" of rawStationPoints. -/
def platform_4 : StationPoint :=
  ⟨"platform-4", some "Platform 4", .platform, 250, 200, none, none⟩

/-- Raw point "waiting-hall" of rawStationPoints. -/
def waiting_hall : StationPoint :=
  ⟨"waiting-hall", some "Waiting Hall", .poi, 150, 300, none, none⟩

/-- Raw point "escalator-1" of rawStationPoints. -/
def escalator_1 : StationPoint :=
  ⟨"escalator-1", some "Escalator 1", .poi, 200, 250, none, none⟩

/-- Raw point "stairs-1" of rawStationPoints. -/
def stairs_1 : StationPoint :=
  ⟨"stairs-1", some "Stairs 1", .poi, 300, 250, none, none⟩

/-- Raw point "node-ga-1" of rawStationPoints. -/
def node_ga_1 : StationPoint :=
  ⟨"node-ga-1", some "Node GA-1", .path_node, 70, 250, none, none⟩

/-- Raw point "node-ga-2" of rawStationPoints. -/
def node_ga_2 : StationPoint :=
  ⟨"node-ga-2", some "Node GA-2", .path_node, 100, 250, none, none⟩

/-- Raw point "node-ga-wh-1" of rawStationPoints. -/
def node_ga_wh_1 : StationPoint :=
  ⟨"node-ga-wh-1", some "Node GA-WH-1", .path_node, 135, 290, none, none⟩

/-- Raw point "node-wh-e1-1" of rawStationPoints. -/
def node_wh_e1_1 : StationPoint :=
  ⟨"node-wh-e1-1", some "Node WH-E1-1", .path_node, 175, 275, none, none⟩

/-- Raw point "node-e1-p1-1" of rawStationPoints. -/
def node_e1_p1_1 : StationPoint :=
  ⟨"node-e1-p1-1", some "Node E1-P1-1", .path_node, 190, 210, none, none⟩

/-- Raw point "node-e1-p1-2" of rawStationPoints. -/
def node_e1_p1_2 : StationPoint :=
  ⟨"node-e1-p1-2", some "Node E1-P1-2", .path_node, 230, 65, none, none⟩

/-- Raw point "node-e1-p2-1" of rawStationPoints. -/
def node_e1_p2_1 : StationPoint :=
  ⟨"node-e1-p2-1", some "Node E1-P2-1", .path_node, 200, 175, none, none⟩

/-- Raw point "node-e1-p2-2" of rawStationPoints (no name in source). -/
def node_e1_p2_2 : StationPoint :=
  ⟨"node-e1-p2-2", none, .path_node, 225, 125, none, none⟩

/-- Raw point "node-wh-s1-1" of rawStationPoints. -/
def node_wh_s1_1 : StationPoint :=
  ⟨"node-wh-s1-1", some "Node WH-S1-1", .path_node, 260, 290, none, none⟩

/-- Raw point "node-s1-p3-1" of rawStationPoints. -/
def node_s1_p3_1 : StationPoint :=
  ⟨"node-s1-p3-1", some "Node S1-P3-1", .path_node, 310, 215, none, none⟩

/-- Raw point "node-s1-p3-2" of rawStationPoints (no name in source). -/
def node_s1_p3_2 : StationPoint :=
  ⟨"node-s1-p3-2", none, .path_node, 280, 165, none, none⟩

/-- Raw point "node-s1-p4-1" of rawStationPoints. -/
def node_s1_p4_1 : StationPoint :=
  ⟨"node-s1-p4-1", some "Node S1-P4-1", .path_node, 300, 200, none, none⟩

/-- Raw point "node-s1-p4-2" of rawStationPoints (no name in source). -/
def node_s1_p4_2 : StationPoint :=
  ⟨"node-s1-p4-2", none, .path_node, 275, 225, none, none⟩

/-- Raw point "node-gb-1" of rawStationPoints. -/
def node_gb_1 : StationPoint :=
  ⟨"node-gb-1", some "Node GB-1", .path_node, 430, 250, none, none⟩

/-- Raw point "node-gb-s1-1" of rawStationPoints. -/
def node_gb_s1_1 : StationPoint :=
  ⟨"node-gb-s1-1", some "Node GB-S1-1", .path_node, 350, 250, none, none⟩

/-- rawStationPoints of src/lib/station-data.ts, in source order. -/
def rawStationPoints : List StationPoint :=
  [gate_a, gate_b, platform_1, platform_2, platform_3, platform_4,
   waiting_hall, escalator_1, stairs_1,
   node_ga_1, node_ga_2, node_ga_wh_1, node_wh_e1_1,
   node_e1_p1_1, node_e1_p1_2, node_e1_p2_1, node_e1_p2_2,
   node_wh_s1_1, node_s1_p3_1, node_s1_p3_2, node_s1_p4_1, node_s1_p4_2,
   node_gb_1, node_gb_s1_1]

/-- The spread {...point, latLng: getLatLngFromOffset(point.x, point.y)}
applied to each raw point when mockStationLayout is built. -/
noncomputable def addLatLng (p : StationPoint) : StationPoint :=
  { p with latLng := some (getLatLngFromOffset p.x p.y) }

/- ------------------------------------------------------------------
   Authored route table (src/lib/station-data.ts lines 90-373).
   ------------------------------------------------------------------ -/

/-- Route "gate-a-platform-1" of mockStationLayout.paths. -/
def gateAPlatform1 : List PathInstruction :=
  [⟨"inst1", "Walk straight from Entry Gate A for 20 meters.",
    "प्रवेश द्वार ए से 20 मीटर सीधा चलें।",
    "gate-a", "node-ga-2", some ["node-ga-1"], some 20, none⟩,
   ⟨"inst2", "Turn right towards Waiting Hall.",
    "प्रतीक्षा कक्ष की ओर दाहिने मुड़ें।",
    "node-ga-2", "waiting-hall", some ["node-ga-wh-1"], some 30, none⟩,
   ⟨"inst3", "Walk straight towards Escalator 1.",
    "एस्केलेटर 1 की ओर सीधा चलें।",
    "waiting-hall", "escalator-1", some ["node-wh-e1-1"], some 40, none⟩,
   ⟨"inst4", "Use Escalator 1 to reach Platform 1.",
    "प्लेटफॉर्म 1 तक पहुंचने के लिए एस्केलेटर 1 का उपयोग करें।",
    "escalator-1", "platform-1", some ["node-e1-p1-1", "node-e1-p1-2"], some 50, none⟩]

/-- Route "gate-a-platform-2" of mockStationLayout.paths. -/
def gateAPlatform2 : List PathInstruction :=
  [⟨"inst1", "Walk straight from Entry Gate A for 20 meters.",
    "प्रवेश द्वार ए से 20 मीटर सीधा चलें।",
    "gate-a", "node-ga-2", some ["node-ga-1"], some 20, none⟩,
   ⟨"inst2", "Turn right towards Waiting Hall.",
    "प्रतीक्षा कक्ष की ओर दाहिने मुड़ें।",
    "node-ga-2", "waiting-hall", some ["node-ga-wh-1"], some 30, none⟩,
   ⟨"inst3", "Walk straight towards Escalator 1.",
    "एस्केलेटर 1 की ओर सीधा चलें।",
    "waiting-hall", "escalator-1", some ["node-wh-e1-1"], some 40, none⟩,
   ⟨"inst4", "Use Escalator 1 to reach Platform 2.",
    "प्लेटफॉर्म 2 तक पहुंचने के लिए एस्केलेटर 1 का उपयोग करें।",
    "escalator-1", "platform-2", some ["node-e1-p2-1", "node-e1-p2-2"], some 50, none⟩]

/-- Route "gate-a-platform-3" of mockStationLayout.paths. -/
def gateAPlatform3 : List PathInstruction :=
  [⟨"inst1", "Walk straight from Entry Gate A for 20 meters.",
    "प्रवेश द्वार ए से 20 मीटर सीधा चलें।",
    "gate-a", "node-ga-2", some ["node-ga-1"], some 20, none⟩,
   ⟨"inst2", "Turn right towards Waiting Hall.",
    "प्रतीक्षा कक्ष की ओर दाहिने मुड़ें।",
    "node-ga-2", "waiting-hall", some ["node-ga-wh-1"], some 30, none⟩,
   ⟨"inst3", "Walk past Escalator 1 and turn right towards Stairs 1.",
    "एस्केलेटर 1 से आगे बढ़ें और सीढ़ियों 1 की ओर दाहिने मुड़ें।",
    "waiting-hall", "stairs-1", some ["node-wh-s1-1"], some 40, none⟩,
   ⟨"inst4", "Use Stairs 1 to reach Platform 3.",
    "प्लेटफॉर्म 3 तक पहुंचने के लिए सीढ़ियों 1 का उपयोग करें।",
    "stairs-1", "platform-3", some ["node-s1-p3-1", "node-s1-p3-2"], some 50, none⟩]

/-- Route "gate-a-platform-4" of mockStationLayout.paths. -/
def gateAPlatform4 : List PathInstruction :=
  [⟨"inst1", "Walk straight from Entry Gate A for 20 meters.",
    "प्रवेश द्वार ए से 20 मीटर सीधा चलें।",
    "gate-a", "node-ga-2", some ["node-ga-1"], some 20, none⟩,
   ⟨"inst2", "Turn right towards Waiting Hall.",
    "प्रतीक्षा कक्ष की ओर दाहिने मुड़ें।",
    "node-ga-2", "waiting-hall", some ["node-ga-wh-1"], some 30, none⟩,
   ⟨"inst3", "Walk past Escalator 1 and turn right towards Stairs 1.",
    "एस्केलेटर 1 से आगे बढ़ें और सीढ़ियों 1 की ओर दाहिने मुड़ें।",
    "waiting-hall", "stairs-1", some ["node-wh-s1-1"], some 40, none⟩,
   ⟨"inst4", "Use Stairs 1 to reach Platform 4.",
    "प्लेटफॉर्म 4 तक पहुंचने के लिए सीढ़ियों 1 का उपयोग करें।",
    "stairs-1", "platform-4", some ["node-s1-p4-1", "node-s1-p4-2"], some 50, none⟩]

/-- Route "gate-b-platform-1" of mockStationLayout.paths.  Its second
instruction has no path_nodes entry at all in the source. -/
def gateBPlatform1 : List PathInstruction :=
  [⟨"inst1", "Walk straight from Entry Gate B for 20 meters.",
    "प्रवेश द्वार बी से 20 मीटर सीधा चलें।",
    "gate-b", "node-gb-s1-1", some ["node-gb-1"], some 20, none⟩,
   ⟨"inst2", "Turn left towards Stairs 1.",
    "सीढ़ियों 1 की ओर बाएं मुड़ें।",
    "node-gb-s1-1", "stairs-1", none, some 30, none⟩,
   ⟨"inst3", "Walk past Stairs 1 and turn left towards Escalator 1.",
    "सीढ़ियों 1 से आगे बढ़ें और एस्केलेटर 1 की ओर बाएं मुड़ें।",
    "stairs-1", "escalator-1", some ["node-wh-e1-1"], some 40, none⟩,
   ⟨"inst4", "Use Escalator 1 to reach Platform 1.",
    "प्लेटफॉर्म 1 तक पहुंचने के लिए एस्केलेटर 1 का उपयोग करें।",
    "escalator-1", "platform-1", some ["node-e1-p1-1", "node-e1-p1-2"], some 50, none⟩]

/-- Route "gate-b-platform-2" of mockStationLayout.paths. -/
def gateBPlatform2 : List PathInstruction :=
  [⟨"inst1", "Walk straight from Entry Gate B for 20 meters.",
    "प्रवेश द्वार बी से 20 मीटर सीधा चलें।",
    "gate-b", "node-gb-s1-1", some ["node-gb-1"], some 20, none⟩,
   ⟨"inst2", "Turn left towards Stairs 1.",
    "सीढ़ियों 1 की ओर बाएं मुड़ें।",
    "node-gb-s1-1", "stairs-1", none, some 30, none⟩,
   ⟨"inst3", "Walk past Stairs 1 and turn left towards Escalator 1.",
    "सीढ़ियों 1 से आगे बढ़ें और एस्केलेटर 1 की ओर बाएं मुड़ें।",
    "stairs-1", "escalator-1", some ["node-wh-e1-1"], some 40, none⟩,
   ⟨"inst4", "Use Escalator 1 to reach Platform 2.",
    "प्लेटफॉर्म 2 तक पहुंचने के लिए एस्केलेटर 1 का उपयोग करें।",
    "escalator-1", "platform-2", some ["node-e1-p2-1", "node-e1-p2-2"], some 50, none⟩]

/-- Route "gate-b-platform-3" of mockStationLayout.paths (three legs). -/
def gateBPlatform3 : List PathInstruction :=
  [⟨"inst1", "Walk straight from Entry Gate B for 20 meters.",
    "प्रवेश द्वार बी से 20 मीटर सीधा चलें।",
    "gate-b", "node-gb-s1-1", some ["node-gb-1"], some 20, none⟩,
   ⟨"inst2", "Turn left towards Stairs 1.",
    "सीढ़ियों 1 की ओर बाएं मुड़ें।",
    "node-gb-s1-1", "stairs-1", none, some 30, none⟩,
   ⟨"inst3", "Use Stairs 1 to reach Platform 3.",
    "प्लेटफॉर्म 3 तक पहुंचने के लिए सीढ़ियों 1 का उपयोग करें।",
    "stairs-1", "platform-3", some ["node-s1-p3-1", "node-s1-p3-2"], some 50, none⟩]

/-- Route "gate-b-platform-4" of mockStationLayout.paths (three legs). -/
def gateBPlatform4 : List PathInstruction :=
  [⟨"inst1", "Walk straight from Entry Gate B for 20 meters.",
    "प्रवेश द्वार बी से 20 मीटर सीधा चलें।",
    "gate-b", "node-gb-s1-1", some ["node-gb-1"], some 20, none⟩,
   ⟨"inst2", "Turn left towards Stairs 1.",
    "सीढ़ियों 1 की ओर बाएं मुड़ें।",
    "node-gb-s1-1", "stairs-1", none, some 30, none⟩,
   ⟨"inst3", "Use Stairs 1 to reach Platform 4.",
    "प्लेटफॉर्म 4 तक पहुंचने के लिए सीढ़ियों 1 का उपयोग करें।",
    "stairs-1", "platform-4", some ["node-s1-p4-1", "node-s1-p4-2"], some 50, none⟩]

/-- mockStationLayout of src/lib/station-data.ts: every raw point with
its latLng filled in, plus the eight authored routes. -/
noncomputable def mockStationLayout : StationLayout :=
  { points := rawStationPoints.map addLatLng
    paths :=
      [("gate-a-platform-1", gateAPlatform1),
       ("gate-a-platform-2", gateAPlatform2),
       ("gate-a-platform-3", gateAPlatform3),
       ("gate-a-platform-4", gateAPlatform4),
       ("gate-b-platform-1", gateBPlatform1),
       ("gate-b-platform-2", gateBPlatform2),
       ("gate-b-platform-3", gateBPlatform3),
       ("gate-b-platform-4", gateBPlatform4)] }

/- ------------------------------------------------------------------
   Route materializer (src/components/station-map.tsx lines 288-331).
   ------------------------------------------------------------------ -/

/-- getPointById of src/components/station-map.tsx: first point of the
layout's point table with the given id. -/
noncomputable def getPointById (layout : StationLayout) (id : String) :
    Option StationPoint :=
  layout.points.find? (fun p => p.id == id)

/-- The instruction part of the flat sequence built by
generatePathPointsForMap: for each instruction, every resolvable
path_node followed by the resolvable target point; unresolvable ids are
skipped silently. -/
noncomputable def instrFlat (layout : StationLayout)
    (instructions : List PathInstruction) : List StationPoint :=
  instructions.flatMap (fun inst =>
    ((inst.path_nodes.getD []).filterMap (getPointById layout)) ++
      (getPointById layout inst.to_).toList)

/-- The flat point sequence of generatePathPointsForMap before the
cumulative-distance loop: the resolved entry gate (if any) followed by
the instruction points.  A null or empty entryGateId is falsy in the
source and short-circuits to the empty sequence. -/
noncomputable def flatPoints (layout : StationLayout)
    (instructions : List PathInstruction) (entryGateId : Option String) :
    List StationPoint :=
  match entryGateId with
  | none => []
  | some gid =>
      if gid = "" then []
      else (getPointById layout gid).toList ++ instrFlat layout instructions

/-- Helper for the cumulative-distance loop: given the previous point
and the running distance, the values assigned to the remaining points. -/
noncomputable def cumAux (prev : StationPoint) (c : ℝ) :
    List StationPoint → List ℝ
  | [] => []
  | p :: ps =>
      (c + getDistanceBetweenPoints prev p) ::
        cumAux p (c + getDistanceBetweenPoints prev p) ps

/-- The value assigned by the cumulative-distance loop of
generatePathPointsForMap at each index of the flat sequence: index 0
gets 0, index i gets the previous value plus the distance between
points i-1 and i. -/
noncomputable def cumulativeList : List StationPoint → List ℝ
  | [] => []
  | p :: ps => 0 :: cumAux p 0 ps

/-- The value held by the shared point object with the given id after
the cumulative-distance loop finishes.  Because the entries of the flat
sequence are references into the global table, a point that occurs
several times keeps only the value of its last assignment. -/
noncomputable def lastAssignment (pts : List StationPoint) (cums : List ℝ)
    (id : String) : Option ℝ :=
  (((pts.zip cums).filter (fun pc => pc.1.id == id)).getLast?).map (fun pc => pc.2)

/-- The flat sequence as observed after the cumulative-distance loop:
every entry carries the final value of its shared object. -/
noncomputable def annotatePoints (pts : List StationPoint) :
    List StationPoint :=
  pts.map (fun p =>
    { p with cumulativeDistance := lastAssignment pts (cumulativeList pts) p.id })

/-- generatePathPointsForMap of src/components/station-map.tsx: the flat
point sequence for the given instructions and entry gate, with each
point's cumulativeDistance as left by the loop. -/
noncomputable def generatePathPointsForMap (layout : StationLayout)
    (instructions : List PathInstruction) (entryGateId : Option String) :
    List StationPoint :=
  annotatePoints (flatPoints layout instructions entryGateId)

/-- The back-annotation pass of generatePathPointsForMap over the
instruction list: each instruction whose target id is found in the
materialized sequence (and carries a cumulative distance) receives that
distance as cumulativeDistanceToTarget; others are left untouched. -/
noncomputable def annotateInstructions (layout : StationLayout)
    (instructions : List PathInstruction) (entryGateId : Option String) :
    List PathInstruction :=
  let pts := generatePathPointsForMap layout instructions entryGateId
  instructions.map (fun inst =>
    match pts.find? (fun p => p.id == inst.to_) with
    | some targetPoint =>
        match targetPoint.cumulativeDistance with
        | some c => { inst with cumulativeDistanceToTarget := some c }
        | none => inst
    | none => inst)

/-- The in-place write performed by the cumulative-distance loop on one
shared point object of the table: a point that participates in the
materialized sequence receives the value of its last assignment, every
other point is untouched. -/
noncomputable def applyLastAssignment (pts : List StationPoint)
    (cums : List ℝ) (q : StationPoint) : StationPoint :=
  match lastAssignment pts cums q.id with
  | some c => { q with cumulativeDistance := some c }
  | none => q

/-- The effect of one generatePathPointsForMap call on the global
topology table, as performed by handleEntryGateSelect: the instruction
list stored under the route key is materialized, every participating
point object of the table receives the cumulative distance of its last
assignment, the route's own instruction objects receive their target
distances, and everything else is left exactly as it was. -/
noncomputable def materializeLayout (layout : StationLayout) (key : String)
    (entryGateId : Option String) : StationLayout :=
  match layout.paths.lookup key with
  | none => layout
  | some instrs =>
      let pts := flatPoints layout instrs entryGateId
      let cums := cumulativeList pts
      { points := layout.points.map (applyLastAssignment pts cums)
        paths := layout.paths.map (fun kv =>
          if kv.1 == key then (kv.1, annotateInstructions layout kv.2 entryGateId)
          else kv) }

/- ------------------------------------------------------------------
   Position simulator (src/components/station-map.tsx lines 393-506
   and 612-616).
   ------------------------------------------------------------------ -/

/-- The mutable state of the simulator: the traveled-distance
accumulator and instruction index (refs), the published user position
and bearing, and whether the periodic timer is installed. -/
structure SimState where
  totalDistanceTraveled : ℝ
  currentInstructionIdx : ℕ
  userPosition : Option LatLng
  userBearing : Option ℝ
  running : Bool

/-- Observable speech effects of the simulator: a speak(text, lang)
call, or a cancel() of the speech synthesis. -/
inductive SimEvent where
  | spoke (text : String) (lang : VoiceLanguage)
  | speechCancelled
deriving DecidableEq

/-- The inputs captured by the simulator closures: the materialized
path, the annotated instructions, the language toggle and the PNR
fields used by the arrival message. -/
structure SimConfig where
  pathPointsForMap : List StationPoint
  pathInstructions : List PathInstruction
  language : VoiceLanguage
  platformNumber : String
  coachDetails : String

/-- simulationSpeed of src/components/station-map.tsx (meters/second). -/
def simulationSpeed : ℝ := 2

/-- simulationIntervalDuration of src/components/station-map.tsx (ms). -/
def simulationIntervalDuration : ℝ := 50

/-- The distanceToAdvance computed on every tick:
simulationSpeed * (simulationIntervalDuration / 1000). -/
noncomputable def distanceToAdvance : ℝ :=
  simulationSpeed * (simulationIntervalDuration / 1000)

/-- The text spoken for an instruction: its English or Hindi variant
depending on the language toggle. -/
def instructionText (inst : PathInstruction) (lang : VoiceLanguage) : String :=
  match lang with
  | .enUS => inst.text
  | .hiIN => inst.hindiText

/-- The destination-reached message built in the completion branch of
the tick. -/
def destinationMessage (cfg : SimConfig) : String :=
  match cfg.language with
  | .enUS => "You have reached Platform " ++ cfg.platformNumber ++ ", Coach "
      ++ cfg.coachDetails ++ "."
  | .hiIN => "आप प्लेटफॉर्म " ++ cfg.platformNumber ++ ", कोच "
      ++ cfg.coachDetails ++ " पर पहुंच गए हैं।"

/-- The total path length read on every tick: the cumulative distance
of the last materialized point, or 0 when the path is empty or the
field is undefined. -/
noncomputable def totalPathLength (cfg : SimConfig) : ℝ :=
  ((cfg.pathPointsForMap.getLast?).bind
    (fun p => p.cumulativeDistance)).getD 0

/-- The segment-locating scan of the tick: the first adjacent pair
whose cumulative-distance range contains the accumulator (inclusive on
both ends), together with the interpolation fraction, which is
(acc - segmentStart) / segmentLength when the segment length is
positive and 0 otherwise. -/
noncomputable def findSegment (acc : ℝ) :
    List StationPoint → Option (StationPoint × StationPoint × ℝ)
  | p1 :: p2 :: rest =>
      let segmentStartDist := (p1.cumulativeDistance).getD 0
      let segmentEndDist := (p2.cumulativeDistance).getD 0
      if segmentStartDist ≤ acc ∧ acc ≤ segmentEndDist then
        some (p1, p2,
          if 0 < segmentEndDist - segmentStartDist then
            (acc - segmentStartDist) / (segmentEndDist - segmentStartDist)
          else 0)
      else findSegment acc (p2 :: rest)
  | _ => none

/-- cancelSimulation of src/components/station-map.tsx: clear the
interval, drop the simulating flag, cancel speech, and clear the
bearing.  The accumulator and the instruction index are left alone. -/
def cancelSimulation (s : SimState) : SimState × List SimEvent :=
  ({ s with running := false, userBearing := none }, [.speechCancelled])

/-- The position-and-bearing update of the non-completion branch of the
tick: when the scan locates a containing segment whose two endpoints
carry coordinates, the published user position becomes the interpolated
point inside that segment and the bearing becomes the bearing between
the segment's endpoints; otherwise only the accumulator moves. -/
noncomputable def positionUpdate (cfg : SimConfig) (acc : ℝ) (s : SimState) :
    SimState :=
  match findSegment acc cfg.pathPointsForMap with
  | some (p1, p2, fractionInSegment) =>
      match p1.latLng, p2.latLng with
      | some a, some b =>
          { s with
            totalDistanceTraveled := acc
            userPosition := some (getIntermediateLatLng a b fractionInSegment)
            userBearing := some (calculateBearing a.lat a.lng b.lat b.lng) }
      | _, _ => { s with totalDistanceTraveled := acc }
  | none => { s with totalDistanceTraveled := acc }

/-- The instruction-threshold check at the end of the non-completion
branch of the tick: when the current instruction exists, carries a
target distance, and that distance has been reached by the accumulator,
the instruction index advances by exactly one and the next instruction
(if any) is spoken; in every other case nothing changes. -/
noncomputable def instructionAdvance (cfg : SimConfig) (acc : ℝ)
    (s1 : SimState) : SimState × List SimEvent :=
  match cfg.pathInstructions[s1.currentInstructionIdx]? with
  | some currentInstruction =>
      match currentInstruction.cumulativeDistanceToTarget with
      | some cdt =>
          if cdt ≤ acc then
            let s2 := { s1 with
              currentInstructionIdx := s1.currentInstructionIdx + 1 }
            match cfg.pathInstructions[s2.currentInstructionIdx]? with
            | some nextInstruction =>
                (s2, [.spoke (instructionText nextInstruction cfg.language)
                        cfg.language])
            | none => (s2, [])
          else (s1, [])
      | none => (s1, [])
  | none => (s1, [])

/-- One body of the setInterval callback installed by startSimulation
(src/components/station-map.tsx lines 417-495): advance the
accumulator; if it reached the total path length, clamp it, announce
arrival and cancel the simulation; otherwise interpolate the position
and bearing inside the containing segment and advance the instruction
index by one if the current instruction's target distance has been
reached, announcing the next instruction if one exists. -/
noncomputable def simulationTick (cfg : SimConfig) (s : SimState) :
    SimState × List SimEvent :=
  let acc := s.totalDistanceTraveled + distanceToAdvance
  if totalPathLength cfg ≤ acc then
    ({ totalDistanceTraveled := totalPathLength cfg
       currentInstructionIdx := s.currentInstructionIdx
       userPosition := s.userPosition
       userBearing := none
       running := false },
     [.spoke (destinationMessage cfg) cfg.language, .speechCancelled])
  else
    instructionAdvance cfg acc (positionUpdate cfg acc s)

/-- One delivery of the periodic timer: the callback body runs only
while the interval installed by startSimulation is still present
(cancelSimulation clears it, so a stopped simulator never ticks
again). -/
noncomputable def simStep (cfg : SimConfig) (s : SimState) :
    SimState × List SimEvent :=
  if s.running then simulationTick cfg s else (s, [])

/-- startSimulation of src/components/station-map.tsx, up to installing
the timer: refuse to start while already simulating, on a path shorter
than two points, or with live location enabled; reset the refs and seed
the position at the first point when starting fresh (no position yet or
accumulator at zero); then announce the current instruction if the
index is in range. -/
noncomputable def startSimulation (cfg : SimConfig)
    (isSimulating liveLocationEnabled : Bool) (s : SimState) :
    SimState × List SimEvent :=
  if isSimulating || decide (cfg.pathPointsForMap.length < 2) ||
      liveLocationEnabled then
    (s, [])
  else
    let s0 := { s with running := true }
    let s1 :=
      if s.userPosition.isNone || decide (s.totalDistanceTraveled = 0) then
        { s0 with
          totalDistanceTraveled := 0
          currentInstructionIdx := 0
          userPosition := (cfg.pathPointsForMap.head?).bind (fun p => p.latLng)
          userBearing := none }
      else s0
    if cfg.pathInstructions.length ≠ 0 ∧
        s1.currentInstructionIdx < cfg.pathInstructions.length then
      match cfg.pathInstructions[s1.currentInstructionIdx]? with
      | some inst =>
          (s1, [.spoke (instructionText inst cfg.language) cfg.language])
      | none => (s1, [])
    else (s1, [])

/-- The useEffect of RailwayNavigation with dependencies
[pnrDetails, selectedEntryGateId] (src/components/station-map.tsx lines
612-616): a new PNR or gate selection zeroes the accumulator and the
instruction index. -/
def resetNavRefs (s : SimState) : SimState :=
  { s with totalDistanceTraveled := 0, currentInstructionIdx := 0 }

/- ------------------------------------------------------------------
   Geometry lemmas and claims C8, C9.
   ------------------------------------------------------------------ -/

theorem toDegrees_le_of_le {rad : ℝ} (h : rad ≤ Real.pi) : toDegrees rad ≤ 180 := by
  have hπ : (0:ℝ) < Real.pi := Real.pi_pos
  have h1 : rad * 180 ≤ Real.pi * 180 := by nlinarith
  have := (div_le_div_iff_of_pos_right hπ).mpr h1
  calc toDegrees rad = rad * 180 / Real.pi := rfl
    _ ≤ Real.pi * 180 / Real.pi := this
    _ = 180 := by field_simp

theorem neg_lt_toDegrees_of_lt {rad : ℝ} (h : -Real.pi < rad) :
    -180 < toDegrees rad := by
  have hπ : (0:ℝ) < Real.pi := Real.pi_pos
  have h1 : -Real.pi * 180 < rad * 180 := by nlinarith
  have h2 := (div_lt_div_iff_of_pos_right hπ).mpr h1
  have h3 : -Real.pi * 180 / Real.pi = -180 := by
    field_simp
    ring
  calc (-180 : ℝ) = -Real.pi * 180 / Real.pi := h3.symm
    _ < rad * 180 / Real.pi := h2
    _ = toDegrees rad := rfl

theorem jsRem_pos_range {v : ℝ} (hv : 0 < v) :
    0 ≤ jsRem v 360 ∧ jsRem v 360 < 360 := by
  have hq : (0:ℝ) ≤ v / 360 := by positivity
  have hrem : jsRem v 360 = 360 * Int.fract (v / 360) := by
    rw [jsRem, if_pos hq, Int.fract]
    field_simp
  constructor
  · rw [hrem]
    have := Int.fract_nonneg (v / 360)
    positivity
  · rw [hrem]
    have := Int.fract_lt_one (v / 360)
    nlinarith

theorem atan2_mem_Ioc (y x : ℝ) :
    -Real.pi < atan2 y x ∧ atan2 y x ≤ Real.pi :=
  ⟨Complex.neg_pi_lt_arg _, Complex.arg_le_pi _⟩

theorem atan2_zero_zero : atan2 0 0 = 0 := by
  have h0 : (⟨0, 0⟩ : ℂ) = 0 := by
    apply Complex.ext <;> simp
  rw [atan2, h0, Complex.arg_zero]

/-- Claim C8: for all latitude/longitude inputs the bearing lies in the
half-open interval [0, 360), and for identical points it is defined and
equals 0 (no division by zero occurs: the normalization is a remainder,
and the atan2 of (0, 0) is 0 by the convention of the formula). -/
theorem calculateBearing_range_and_identical :
    (∀ lat1 lng1 lat2 lng2 : ℝ,
        0 ≤ calculateBearing lat1 lng1 lat2 lng2 ∧
        calculateBearing lat1 lng1 lat2 lng2 < 360) ∧
    (∀ lat lng : ℝ, calculateBearing lat lng lat lng = 0) := by
  constructor
  · intro lat1 lng1 lat2 lng2
    rw [calculateBearing]
    set θ := atan2
      (Real.sin (toRadians (lng2 - lng1)) * Real.cos (toRadians lat2))
      (Real.cos (toRadians lat1) * Real.sin (toRadians lat2) -
        Real.sin (toRadians lat1) * Real.cos (toRadians lat2) *
          Real.cos (toRadians (lng2 - lng1))) with hθ
    have hbounds := atan2_mem_Ioc
      (Real.sin (toRadians (lng2 - lng1)) * Real.cos (toRadians lat2))
      (Real.cos (toRadians lat1) * Real.sin (toRadians lat2) -
        Real.sin (toRadians lat1) * Real.cos (toRadians lat2) *
          Real.cos (toRadians (lng2 - lng1)))
    rw [← hθ] at hbounds
    have hlow : -180 < toDegrees θ := neg_lt_toDegrees_of_lt hbounds.1
    have hv : 0 < toDegrees θ + 360 := by linarith
    exact jsRem_pos_range hv
  · intro lat lng
    rw [calculateBearing]
    have hzero : lng - lng = 0 := by ring
    rw [hzero]
    have hr0 : toRadians 0 = 0 := by rw [toRadians]; ring
    rw [hr0]
    simp only [Real.sin_zero, Real.cos_zero, zero_mul, mul_one]
    have hx : Real.cos (toRadians lat) * Real.sin (toRadians lat) -
        Real.sin (toRadians lat) * Real.cos (toRadians lat) = 0 := by ring
    rw [hx, atan2_zero_zero]
    have hd0 : toDegrees 0 = 0 := by rw [toDegrees]; ring
    rw [hd0, zero_add, jsRem, if_pos (by norm_num : (0:ℝ) ≤ 360 / 360)]
    norm_num

/-- Claim C9: the linear interpolation helper returns the start point at
fraction 0, the end point at fraction 1, and is constant when both
endpoints coincide, for every fraction. -/
theorem getIntermediateLatLng_endpoints :
    (∀ (a : LatLng) (f : ℝ), getIntermediateLatLng a a f = a) ∧
    (∀ a b : LatLng, getIntermediateLatLng a b 0 = a) ∧
    (∀ a b : LatLng, getIntermediateLatLng a b 1 = b) := by
  refine ⟨?_, ?_, ?_⟩
  · intro a f
    ext <;> simp [getIntermediateLatLng]
  · intro a b
    ext <;> simp [getIntermediateLatLng]
  · intro a b
    ext <;> simp [getIntermediateLatLng]

/- ------------------------------------------------------------------
   Simulator frame lemmas and claim C6.
   ------------------------------------------------------------------ -/

/-- Claim C6: cancelling the simulation (the one cancelSimulation
routine, invoked by the pause button, by a route change and by enabling
live location) clears the timer, cancels speech and clears the bearing,
but leaves the traveled-distance accumulator and the instruction index
untouched; only the new-gate / new-PNR effect (resetNavRefs) zeroes
them. -/
theorem cancelSimulation_preserves_refs :
    ∀ s : SimState,
      (cancelSimulation s).1.totalDistanceTraveled = s.totalDistanceTraveled ∧
      (cancelSimulation s).1.currentInstructionIdx = s.currentInstructionIdx ∧
      (cancelSimulation s).1.running = false ∧
      (cancelSimulation s).1.userBearing = none ∧
      (cancelSimulation s).2 = [SimEvent.speechCancelled] ∧
      (resetNavRefs s).totalDistanceTraveled = 0 ∧
      (resetNavRefs s).currentInstructionIdx = 0 := by
  intro s
  simp [cancelSimulation, resetNavRefs]

/- ------------------------------------------------------------------
   Tick lemmas and claims C7, C2, C3.
   ------------------------------------------------------------------ -/


theorem positionUpdate_frame (cfg : SimConfig) (acc : ℝ) (s : SimState) :
    (positionUpdate cfg acc s).currentInstructionIdx = s.currentInstructionIdx ∧
    (positionUpdate cfg acc s).running = s.running ∧
    (positionUpdate cfg acc s).totalDistanceTraveled = acc := by
  unfold positionUpdate
  split <;> (try split) <;> exact ⟨rfl, rfl, rfl⟩

/-- Claim C7: whenever the tick's segment scan locates a containing
segment, the interpolation fraction equals
(accumulator - segmentStart) / segmentLength for a positive segment
length and 0 for a zero-length (degenerate) segment, so no division by
zero is performed; moreover the located range contains the accumulator
and the fraction always lies in [0, 1]. -/
theorem findSegment_fraction (acc : ℝ) (pts : List StationPoint)
    (p1 p2 : StationPoint) (f : ℝ)
    (h : findSegment acc pts = some (p1, p2, f)) :
    (p1.cumulativeDistance.getD 0 ≤ acc ∧
      acc ≤ p2.cumulativeDistance.getD 0) ∧
    (0 < p2.cumulativeDistance.getD 0 - p1.cumulativeDistance.getD 0 →
      f = (acc - p1.cumulativeDistance.getD 0) /
          (p2.cumulativeDistance.getD 0 - p1.cumulativeDistance.getD 0)) ∧
    (p2.cumulativeDistance.getD 0 - p1.cumulativeDistance.getD 0 = 0 →
      f = 0) ∧
    0 ≤ f ∧ f ≤ 1 := by
  induction pts with
  | nil => simp [findSegment] at h
  | cons p ps ih =>
    match ps, h, ih with
    | [], h, _ => simp [findSegment] at h
    | q :: rest, h, ih =>
      rw [findSegment] at h
      by_cases hc : (p.cumulativeDistance.getD 0 ≤ acc ∧
          acc ≤ q.cumulativeDistance.getD 0)
      · rw [if_pos hc, Option.some_inj] at h
        simp only [Prod.mk.injEq] at h
        obtain ⟨hp, hq, hf⟩ := h
        subst hp
        subst hq
        subst hf
        refine ⟨hc, ?_, ?_, ?_, ?_⟩
        · intro hpos
          rw [if_pos hpos]
        · intro h0
          rw [if_neg (by rw [h0]; exact lt_irrefl 0)]
        · by_cases hpos : 0 < q.cumulativeDistance.getD 0 -
              p.cumulativeDistance.getD 0
          · rw [if_pos hpos]
            exact div_nonneg (by linarith [hc.1]) (le_of_lt hpos)
          · rw [if_neg hpos]
        · by_cases hpos : 0 < q.cumulativeDistance.getD 0 -
              p.cumulativeDistance.getD 0
          · rw [if_pos hpos]
            exact (div_le_one hpos).mpr (by linarith [hc.2])
          · rw [if_neg hpos]
            norm_num
      · rw [if_neg hc] at h
        exact ih h

theorem instructionAdvance_fst_of_hit (cfg : SimConfig) (acc : ℝ)
    (s1 : SimState) (inst : PathInstruction)
    (hinst : cfg.pathInstructions[s1.currentInstructionIdx]? = some inst)
    (cdt : ℝ) (hcdt : inst.cumulativeDistanceToTarget = some cdt)
    (hle : cdt ≤ acc) :
    (instructionAdvance cfg acc s1).1 =
      { s1 with currentInstructionIdx := s1.currentInstructionIdx + 1 } := by
  rw [instructionAdvance, hinst]
  simp only []
  rw [hcdt]
  simp only []
  rw [if_pos hle]
  split <;> rfl

theorem instructionAdvance_idx_le (cfg : SimConfig) (acc : ℝ)
    (s1 : SimState) :
    (instructionAdvance cfg acc s1).1.currentInstructionIdx ≤
      s1.currentInstructionIdx + 1 := by
  rw [instructionAdvance]
  split
  · split
    · split
      · dsimp only
        split <;> exact Nat.le_refl _
      · exact Nat.le_succ _
    · exact Nat.le_succ _
  · exact Nat.le_succ _

theorem simStep_completion_eval (cfg : SimConfig) (s : SimState)
    (hrun : s.running = true)
    (hend : totalPathLength cfg ≤ s.totalDistanceTraveled + distanceToAdvance) :
    simStep cfg s =
      ({ totalDistanceTraveled := totalPathLength cfg
         currentInstructionIdx := s.currentInstructionIdx
         userPosition := s.userPosition
         userBearing := none
         running := false },
       [SimEvent.spoke (destinationMessage cfg) cfg.language,
        SimEvent.speechCancelled]) := by
  rw [simStep, hrun]
  simp only [if_true]
  simp only [simulationTick]
  rw [if_pos hend]

theorem simStep_not_running (cfg : SimConfig) (s : SimState)
    (h : s.running = false) : simStep cfg s = (s, []) := by
  rw [simStep, h]
  simp

/-- Claim C2: a tick whose advanced accumulator reaches the total path
length clamps the accumulator to exactly the total length, announces
the destination-reached message, stops the timer (the simulator never
ticks again and emits nothing more, so the transition happens exactly
once) and leaves the published user position where it was, never past
the final materialized point. -/
theorem simulationTick_completion (cfg : SimConfig) (s : SimState)
    (hrun : s.running = true)
    (hend : totalPathLength cfg ≤ s.totalDistanceTraveled + distanceToAdvance) :
    (simStep cfg s).1.totalDistanceTraveled = totalPathLength cfg ∧
    (simStep cfg s).1.running = false ∧
    (simStep cfg s).1.userPosition = s.userPosition ∧
    (simStep cfg s).2 =
      [SimEvent.spoke (destinationMessage cfg) cfg.language,
       SimEvent.speechCancelled] ∧
    simStep cfg (simStep cfg s).1 = ((simStep cfg s).1, []) := by
  have heval := simStep_completion_eval cfg s hrun hend
  refine ⟨?_, ?_, ?_, ?_, ?_⟩ <;> rw [heval]
  exact simStep_not_running cfg _ rfl

/-- State with accumulator 4.95 about to complete a 5-meter path. -/
noncomputable def wState : SimState :=
  { totalDistanceTraveled := 99 / 20
    currentInstructionIdx := 0
    userPosition := none
    userBearing := none
    running := true }

/-- A two-point, 5-meter materialized path used as a concrete
simulator configuration. -/
noncomputable def wCfg : SimConfig :=
  { pathPointsForMap :=
      [⟨"w-a", none, .path_node, 0, 0, none, some 0⟩,
       ⟨"w-b", none, .path_node, 5, 0, none, some 5⟩]
    pathInstructions := []
    language := .enUS
    platformNumber := "1"
    coachDetails := "S1, Seat 45" }

theorem simulationTick_completion_witness :
    wState.running = true ∧
    totalPathLength wCfg ≤ wState.totalDistanceTraveled + distanceToAdvance ∧
    (simStep wCfg wState).1.totalDistanceTraveled = totalPathLength wCfg ∧
    (simStep wCfg wState).1.running = false := by
  have h1 : wState.running = true := rfl
  have h2 : totalPathLength wCfg ≤
      wState.totalDistanceTraveled + distanceToAdvance := by
    norm_num [totalPathLength, wCfg, wState, distanceToAdvance,
      simulationSpeed, simulationIntervalDuration]
  have hmain := simulationTick_completion wCfg wState h1 h2
  exact ⟨h1, h2, hmain.1, hmain.2.1⟩

theorem simStep_advance_idx (cfg : SimConfig) (s : SimState)
    (hrun : s.running = true)
    (hlt : s.totalDistanceTraveled + distanceToAdvance < totalPathLength cfg)
    (inst : PathInstruction)
    (hinst : cfg.pathInstructions[s.currentInstructionIdx]? = some inst)
    (cdt : ℝ) (hcdt : inst.cumulativeDistanceToTarget = some cdt)
    (hle : cdt ≤ s.totalDistanceTraveled + distanceToAdvance) :
    (simStep cfg s).1.currentInstructionIdx = s.currentInstructionIdx + 1 := by
  rw [simStep, hrun]
  simp only [if_true]
  simp only [simulationTick]
  rw [if_neg (not_le.mpr hlt)]
  have hidx :=
    (positionUpdate_frame cfg (s.totalDistanceTraveled + distanceToAdvance) s).1
  have hins2 : cfg.pathInstructions[(positionUpdate cfg
      (s.totalDistanceTraveled + distanceToAdvance) s).currentInstructionIdx]? =
      some inst := by
    rw [hidx]
    exact hinst
  rw [instructionAdvance_fst_of_hit cfg _ _ inst hins2 cdt hcdt hle]
  simp [hidx]

theorem simStep_idx_le (cfg : SimConfig) (s : SimState) :
    (simStep cfg s).1.currentInstructionIdx ≤ s.currentInstructionIdx + 1 := by
  by_cases hrun : s.running = true
  · rw [simStep, hrun]
    simp only [if_true]
    simp only [simulationTick]
    by_cases hend : totalPathLength cfg ≤
        s.totalDistanceTraveled + distanceToAdvance
    · rw [if_pos hend]
      exact Nat.le_succ _
    · rw [if_neg hend]
      have h1 := instructionAdvance_idx_le cfg
        (s.totalDistanceTraveled + distanceToAdvance)
        (positionUpdate cfg (s.totalDistanceTraveled + distanceToAdvance) s)
      have h2 := (positionUpdate_frame cfg
        (s.totalDistanceTraveled + distanceToAdvance) s).1
      omega
  · have hfalse : s.running = false := by
      revert hrun
      cases s.running <;> simp
    rw [simStep_not_running cfg s hfalse]
    exact Nat.le_succ _

/-- Claim C3 (amended): on every tick that does not complete the route,
if the current instruction exists and its target distance is at most
the advanced accumulator, the instruction index increases by exactly
one — even if several instruction thresholds were crossed during the
tick — and on no tick whatsoever does the index increase by more than
one. -/
theorem simulationTick_advances_by_one (cfg : SimConfig) (s : SimState)
    (hrun : s.running = true)
    (hlt : s.totalDistanceTraveled + distanceToAdvance < totalPathLength cfg)
    (inst : PathInstruction)
    (hinst : cfg.pathInstructions[s.currentInstructionIdx]? = some inst)
    (cdt : ℝ) (hcdt : inst.cumulativeDistanceToTarget = some cdt)
    (hle : cdt ≤ s.totalDistanceTraveled + distanceToAdvance) :
    (simStep cfg s).1.currentInstructionIdx = s.currentInstructionIdx + 1 ∧
    ∀ (cfg2 : SimConfig) (s2 : SimState),
      (simStep cfg2 s2).1.currentInstructionIdx ≤
        s2.currentInstructionIdx + 1 :=
  ⟨simStep_advance_idx cfg s hrun hlt inst hinst cdt hcdt hle,
   fun cfg2 s2 => simStep_idx_le cfg2 s2⟩

/-- First of the two instructions of the concrete two-leg
configuration: its target distance 1 is crossed at accumulator 2.1. -/
noncomputable def advInstr1 : PathInstruction :=
  ⟨"i1", "Leg one.", "पहला चरण।", "w-a", "w-b", none, some 1, some 1⟩

/-- Second instruction: its target distance 2 is also already crossed
at accumulator 2.1, but only one advance may happen per tick. -/
noncomputable def advInstr2 : PathInstruction :=
  ⟨"i2", "Leg two.", "दूसरा चरण।", "w-b", "w-c", none, some 1, some 2⟩

/-- A 100-meter two-point path carrying the two instructions above. -/
noncomputable def advCfg : SimConfig :=
  { pathPointsForMap :=
      [⟨"w-a", none, .path_node, 0, 0, none, some 0⟩,
       ⟨"w-b", none, .path_node, 100, 0, none, some 100⟩]
    pathInstructions := [advInstr1, advInstr2]
    language := .enUS
    platformNumber := "1"
    coachDetails := "S1, Seat 45" }

/-- State at accumulator 2 and instruction index 0: the next tick puts
the accumulator at 2.1, past both instruction thresholds. -/
noncomputable def advState : SimState :=
  { totalDistanceTraveled := 2
    currentInstructionIdx := 0
    userPosition := none
    userBearing := none
    running := true }

theorem simulationTick_advances_by_one_witness :
    advState.running = true ∧
    advState.totalDistanceTraveled + distanceToAdvance <
      totalPathLength advCfg ∧
    advCfg.pathInstructions[advState.currentInstructionIdx]? =
      some advInstr1 ∧
    advInstr1.cumulativeDistanceToTarget = some 1 ∧
    (1 : ℝ) ≤ advState.totalDistanceTraveled + distanceToAdvance ∧
    advInstr2.cumulativeDistanceToTarget = some 2 ∧
    (2 : ℝ) ≤ advState.totalDistanceTraveled + distanceToAdvance ∧
    (simStep advCfg advState).1.currentInstructionIdx = 1 := by
  have h1 : advState.running = true := rfl
  have h2 : advState.totalDistanceTraveled + distanceToAdvance <
      totalPathLength advCfg := by
    norm_num [advCfg, advState, totalPathLength, distanceToAdvance,
      simulationSpeed, simulationIntervalDuration]
  have h3 : advCfg.pathInstructions[advState.currentInstructionIdx]? =
      some advInstr1 := rfl
  have h4 : advInstr1.cumulativeDistanceToTarget = some 1 := rfl
  have h5 : (1 : ℝ) ≤ advState.totalDistanceTraveled + distanceToAdvance := by
    norm_num [advState, distanceToAdvance, simulationSpeed,
      simulationIntervalDuration]
  have h7 : (2 : ℝ) ≤ advState.totalDistanceTraveled + distanceToAdvance := by
    norm_num [advState, distanceToAdvance, simulationSpeed,
      simulationIntervalDuration]
  have hmain := simulationTick_advances_by_one advCfg advState h1 h2
    advInstr1 h3 1 h4 h5
  exact ⟨h1, h2, h3, h4, h5, rfl, h7, hmain.1⟩

/-- The single instruction of the counterexample configuration: its
target distance equals the total path length. -/
noncomputable def cexInstr : PathInstruction :=
  ⟨"i1", "Go to the platform.", "प्लेटफॉर्म पर जाएं।",
   "w-a", "w-b", none, some 5, some 5⟩

/-- A 5-meter two-point path whose only instruction targets the far
end. -/
noncomputable def cexCfg : SimConfig :=
  { pathPointsForMap :=
      [⟨"w-a", none, .path_node, 0, 0, none, some 0⟩,
       ⟨"w-b", none, .path_node, 5, 0, none, some 5⟩]
    pathInstructions := [cexInstr]
    language := .enUS
    platformNumber := "1"
    coachDetails := "S1, Seat 45" }

/-- Counterexample to claim C3 as stated: on the completing tick from
accumulator 4.95 the advanced (and clamped) accumulator is 5, the
current instruction's target distance 5 is at most the accumulator,
yet the instruction index does not increase: the completion branch
returns before the instruction-threshold check runs. -/
theorem simulationTick_no_advance_on_completion :
    cexCfg.pathInstructions[wState.currentInstructionIdx]? =
      some cexInstr ∧
    cexInstr.cumulativeDistanceToTarget = some 5 ∧
    (5 : ℝ) ≤ wState.totalDistanceTraveled + distanceToAdvance ∧
    wState.running = true ∧
    (simStep cexCfg wState).1.totalDistanceTraveled = 5 ∧
    (simStep cexCfg wState).1.currentInstructionIdx =
      wState.currentInstructionIdx := by
  have hrun : wState.running = true := rfl
  have htot : totalPathLength cexCfg = 5 := by
    norm_num [totalPathLength, cexCfg]
  have hend : totalPathLength cexCfg ≤
      wState.totalDistanceTraveled + distanceToAdvance := by
    rw [htot]
    norm_num [wState, distanceToAdvance, simulationSpeed,
      simulationIntervalDuration]
  have heval := simStep_completion_eval cexCfg wState hrun hend
  refine ⟨rfl, rfl, ?_, hrun, ?_, ?_⟩
  · norm_num [wState, distanceToAdvance, simulationSpeed,
      simulationIntervalDuration]
  · rw [heval]
    exact htot
  · rw [heval]

theorem findSegment_fraction_witness :
    findSegment 1 cexCfg.pathPointsForMap =
      some (⟨"w-a", none, .path_node, 0, 0, none, some 0⟩,
            ⟨"w-b", none, .path_node, 5, 0, none, some 5⟩, (1 : ℝ) / 5) ∧
    (0 : ℝ) ≤ 1 / 5 ∧ (1 : ℝ) / 5 ≤ 1 := by
  have heq : findSegment 1 cexCfg.pathPointsForMap =
      some (⟨"w-a", none, .path_node, 0, 0, none, some 0⟩,
            ⟨"w-b", none, .path_node, 5, 0, none, some 5⟩, (1 : ℝ) / 5) := by
    norm_num [findSegment, cexCfg]
  have h := findSegment_fraction 1 cexCfg.pathPointsForMap _ _ _ heq
  exact ⟨heq, h.2.2.2.1, h.2.2.2.2⟩

/- ------------------------------------------------------------------
   Cumulative-distance loop lemmas and claim C1.
   ------------------------------------------------------------------ -/

theorem cumAux_length (prev : StationPoint) (c : ℝ) (ps : List StationPoint) :
    (cumAux prev c ps).length = ps.length := by
  induction ps generalizing prev c with
  | nil => simp [cumAux]
  | cons p ps ih => simp [cumAux, ih]

theorem cumulativeList_length (pts : List StationPoint) :
    (cumulativeList pts).length = pts.length := by
  cases pts with
  | nil => simp [cumulativeList]
  | cons p ps => simp [cumulativeList, cumAux_length]

theorem filter_zip_id_nil (pts : List StationPoint) (cums : List ℝ)
    (i : String) (h : ∀ p ∈ pts, p.id ≠ i) :
    (pts.zip cums).filter (fun pc => pc.1.id == i) = [] := by
  induction pts generalizing cums with
  | nil => simp
  | cons p ps ih =>
    cases cums with
    | nil => simp
    | cons c cs =>
      rw [List.zip_cons_cons, List.filter_cons]
      have hne : (p.id == i) = false :=
        beq_eq_false_iff_ne.mpr (h p (List.mem_cons_self p ps))
      simp only [hne, Bool.false_eq_true, if_false]
      exact ih cs (fun q hq => h q (List.mem_cons_of_mem p hq))

theorem lastAssignment_cons_ne (p : StationPoint) (ps : List StationPoint)
    (c : ℝ) (cs : List ℝ) (i : String) (hne : p.id ≠ i) :
    lastAssignment (p :: ps) (c :: cs) i = lastAssignment ps cs i := by
  rw [lastAssignment, lastAssignment, List.zip_cons_cons, List.filter_cons]
  simp only [beq_eq_false_iff_ne.mpr hne, Bool.false_eq_true, if_false]

theorem lastAssignment_cons_head (p : StationPoint) (ps : List StationPoint)
    (c : ℝ) (cs : List ℝ) (hnotin : ∀ q ∈ ps, q.id ≠ p.id) :
    lastAssignment (p :: ps) (c :: cs) p.id = some c := by
  rw [lastAssignment, List.zip_cons_cons, List.filter_cons]
  simp only [beq_self_eq_true, if_true]
  rw [filter_zip_id_nil ps cs p.id hnotin]
  rfl

theorem lastAssignment_nodup (pts : List StationPoint) (cums : List ℝ)
    (hlen : cums.length = pts.length)
    (hnd : (pts.map (fun p => p.id)).Nodup) (k : ℕ) (hk : k < pts.length)
    (hk2 : k < cums.length) :
    lastAssignment pts cums pts[k].id = some cums[k] := by
  induction pts generalizing cums k with
  | nil => simp at hk
  | cons p ps ih =>
    cases cums with
    | nil => simp at hk2
    | cons c cs =>
      rw [List.map_cons, List.nodup_cons] at hnd
      cases k with
      | zero =>
        simp only [List.getElem_cons_zero]
        exact lastAssignment_cons_head p ps c cs
          (fun q hq hqe => hnd.1 (hqe ▸ List.mem_map_of_mem (fun r => r.id) hq))
      | succ j =>
        simp only [List.getElem_cons_succ]
        have hj : j < ps.length := by
          simpa using hk
        have hne : p.id ≠ ps[j].id := fun he =>
          hnd.1 (he ▸ List.mem_map_of_mem (fun r => r.id) (ps.getElem_mem hj))
        rw [lastAssignment_cons_ne p ps c cs _ hne]
        exact ih cs (by simpa using hlen) hnd.2 j hj (by simpa using hk2)

theorem annotatePoints_eq_zipWith (pts : List StationPoint)
    (hnd : (pts.map (fun p => p.id)).Nodup) :
    annotatePoints pts =
      List.zipWith (fun p c => { p with cumulativeDistance := some c })
        pts (cumulativeList pts) := by
  apply List.ext_getElem
  · simp [annotatePoints, cumulativeList_length]
  · intro n h1 h2
    simp only [annotatePoints, List.getElem_map, List.getElem_zipWith]
    rw [lastAssignment_nodup pts (cumulativeList pts)
      (cumulativeList_length pts) hnd n (by simpa [annotatePoints] using h1)
      (by simp [cumulativeList_length]; simpa [annotatePoints] using h1)]

theorem chain'_zipWith_cumAux :
    ∀ (ps : List StationPoint) (prev : StationPoint) (c : ℝ),
    List.Chain' (fun a b => b.cumulativeDistance =
        some (a.cumulativeDistance.getD 0 + getDistanceBetweenPoints a b))
      (List.zipWith (fun p c => { p with cumulativeDistance := some c })
        (prev :: ps) (c :: cumAux prev c ps))
  | [], prev, c => by simp [cumAux]
  | p :: ps', prev, c => by
    rw [cumAux]
    simp only [List.zipWith_cons_cons]
    rw [List.chain'_cons]
    refine ⟨rfl, ?_⟩
    have := chain'_zipWith_cumAux ps' p (c + getDistanceBetweenPoints prev p)
    simpa only [List.zipWith_cons_cons] using this

/- ------------------------------------------------------------------
   Square-root evaluation helpers and point-table lookups.
   ------------------------------------------------------------------ -/

theorem sqrt_of_sq {a b : ℝ} (hb : 0 ≤ b) (h : b * b = a) :
    Real.sqrt a = b := by
  rw [← h, Real.sqrt_mul_self hb]

theorem le_sqrt_of_sq {a b : ℝ} (hb : 0 ≤ b) (h : b * b ≤ a) :
    b ≤ Real.sqrt a := by
  have := Real.sqrt_le_sqrt h
  rwa [Real.sqrt_mul_self hb] at this

theorem sqrt_le_of_sq {a b : ℝ} (hb : 0 ≤ b) (h : a ≤ b * b) :
    Real.sqrt a ≤ b := by
  have := Real.sqrt_le_sqrt h
  rwa [Real.sqrt_mul_self hb] at this

theorem sqrt400 : Real.sqrt 400 = 20 := sqrt_of_sq (by norm_num) (by norm_num)

theorem sqrt900 : Real.sqrt 900 = 30 := sqrt_of_sq (by norm_num) (by norm_num)

theorem sqrt625 : Real.sqrt 625 = 25 := sqrt_of_sq (by norm_num) (by norm_num)

theorem sqrt2500 : Real.sqrt 2500 = 50 := sqrt_of_sq (by norm_num) (by norm_num)

theorem sqrt6400 : Real.sqrt 6400 = 80 := sqrt_of_sq (by norm_num) (by norm_num)

theorem getPointById_mock (i : String) :
    getPointById mockStationLayout i =
      (rawStationPoints.find? (fun p => p.id == i)).map addLatLng := by
  rw [getPointById, mockStationLayout]
  simp only []
  rw [List.find?_map]
  rfl

/-- Claim C1 (amended): whenever no point occurs twice in the flat
sequence — true of every authored route — the materialized path starts
at cumulative distance exactly 0, each later point carries the previous
point's cumulative distance plus the planar Euclidean distance between
the two, and the cumulative distances are non-decreasing along the
path.  (Without that proviso a repeated point keeps only its last
assignment, see the counterexample.) -/
theorem generatePath_cumulative_profile (layout : StationLayout)
    (instrs : List PathInstruction) (gid : Option String)
    (hnd : ((flatPoints layout instrs gid).map (fun p => p.id)).Nodup) :
    (∀ p ∈ (generatePathPointsForMap layout instrs gid).head?,
        p.cumulativeDistance = some 0) ∧
    List.Chain' (fun a b => b.cumulativeDistance =
        some (a.cumulativeDistance.getD 0 + getDistanceBetweenPoints a b))
      (generatePathPointsForMap layout instrs gid) ∧
    List.Pairwise (fun a b =>
        a.cumulativeDistance.getD 0 ≤ b.cumulativeDistance.getD 0)
      (generatePathPointsForMap layout instrs gid) := by
  rw [generatePathPointsForMap, annotatePoints_eq_zipWith _ hnd]
  rcases hfl : flatPoints layout instrs gid with _ | ⟨p, ps⟩
  · simp
  · rw [cumulativeList]
    have hchain := chain'_zipWith_cumAux ps p 0
    have hmono : List.Chain' (fun a b =>
        a.cumulativeDistance.getD 0 ≤ b.cumulativeDistance.getD 0)
        (List.zipWith (fun p c => { p with cumulativeDistance := some c })
          (p :: ps) (0 :: cumAux p 0 ps)) := by
      refine hchain.imp (fun a b hab => ?_)
      rw [hab]
      simp only [Option.getD_some]
      exact le_add_of_nonneg_right (Real.sqrt_nonneg _)
    refine ⟨?_, hchain, ?_⟩
    · intro q hq
      simp only [List.zipWith_cons_cons, List.head?_cons, Option.mem_def,
        Option.some_inj] at hq
      rw [← hq]
    · haveI : IsTrans StationPoint (fun a b =>
          a.cumulativeDistance.getD 0 ≤ b.cumulativeDistance.getD 0) :=
        ⟨fun _ _ _ h1 h2 => le_trans h1 h2⟩
      rw [← List.chain'_iff_pairwise]
      exact hmono

theorem generatePath_cumulative_profile_witness :
    ((flatPoints mockStationLayout [] (some "gate-a")).map
        (fun p => p.id)).Nodup ∧
    (generatePathPointsForMap mockStationLayout [] (some "gate-a")).head?.map
        (fun p => p.cumulativeDistance) = some (some 0) := by
  have hfl : flatPoints mockStationLayout [] (some "gate-a") =
      [addLatLng gate_a] := rfl
  have hnd : ((flatPoints mockStationLayout [] (some "gate-a")).map
      (fun p => p.id)).Nodup := by
    rw [hfl]
    simp
  have hhead : (generatePathPointsForMap mockStationLayout []
      (some "gate-a")).head? =
      some { addLatLng gate_a with cumulativeDistance := some 0 } := rfl
  have h2 := (generatePath_cumulative_profile mockStationLayout []
    (some "gate-a") hnd).1 _ (Option.mem_def.mpr hhead)
  refine ⟨hnd, ?_⟩
  rw [hhead]
  simp [h2]

/-- A leg from the gate to the first corridor node, used to build a
route that revisits a point. -/
def loopInstr1 : PathInstruction :=
  ⟨"x1", "Walk to the first corridor node.", "पहले गलियारा नोड तक चलें।",
   "gate-a", "node-ga-1", none, some 20, none⟩

/-- A leg that walks back to the entry gate, so the gate's shared point
object is visited twice. -/
def loopInstr2 : PathInstruction :=
  ⟨"x2", "Walk back to the entry gate.", "वापस प्रवेश द्वार तक चलें।",
   "node-ga-1", "gate-a", none, some 20, none⟩

/-- Counterexample to claim C1 as stated over arbitrary instruction
lists: a route that returns to its starting gate materializes the same
shared point object at indices 0 and 2, the loop's last write (40)
overwrites the first one (0), and the observed annotation sequence
[40, 20, 40] starts nonzero, breaks the recurrence at index 1 and is
not non-decreasing. -/
theorem generatePath_alias_counterexample :
    (flatPoints mockStationLayout [loopInstr1, loopInstr2]
        (some "gate-a")).map (fun p => p.id) =
      ["gate-a", "node-ga-1", "gate-a"] ∧
    (generatePathPointsForMap mockStationLayout [loopInstr1, loopInstr2]
        (some "gate-a")).map (fun p => p.cumulativeDistance) =
      [some 40, some 20, some 40] ∧
    (generatePathPointsForMap mockStationLayout [loopInstr1, loopInstr2]
        (some "gate-a")).head?.map (fun p => p.cumulativeDistance) =
      some (some 40) ∧
    ¬ List.Pairwise (fun a b =>
        a.cumulativeDistance.getD 0 ≤ b.cumulativeDistance.getD 0)
      (generatePathPointsForMap mockStationLayout [loopInstr1, loopInstr2]
        (some "gate-a")) := by
  have hfl : flatPoints mockStationLayout [loopInstr1, loopInstr2]
      (some "gate-a") =
      [addLatLng gate_a, addLatLng node_ga_1, addLatLng gate_a] := rfl
  have hcums : cumulativeList
      [addLatLng gate_a, addLatLng node_ga_1, addLatLng gate_a] =
      [0, 20, 40] := by
    norm_num [cumulativeList, cumAux, addLatLng, gate_a, node_ga_1,
      getDistanceBetweenPoints, sqrt400]
  have hpts : generatePathPointsForMap mockStationLayout
      [loopInstr1, loopInstr2] (some "gate-a") =
      [{ addLatLng gate_a with cumulativeDistance := some 40 },
       { addLatLng node_ga_1 with cumulativeDistance := some 20 },
       { addLatLng gate_a with cumulativeDistance := some 40 }] := by
    rw [generatePathPointsForMap, hfl]
    simp only [annotatePoints, hcums]
    rfl
  refine ⟨by rw [hfl]; rfl, by rw [hpts]; rfl, by rw [hpts]; rfl, ?_⟩
  rw [hpts]
  intro hpw
  have h01 := (List.pairwise_cons.mp hpw).1 _ (List.mem_cons_self _ _)
  simp only [Option.getD_some] at h01
  norm_num at h01

/- ------------------------------------------------------------------
   Claim C4: unresolved or absent entry gate.
   ------------------------------------------------------------------ -/

/-- Claim C4 (amended): an absent (null) or empty entry gate id is
falsy and yields an empty materialized path; a non-empty gate id that
does not resolve in the topology table does NOT yield an empty path —
only the start point is omitted and the instruction-derived points are
still materialized — and no error is raised in either case. -/
theorem generatePath_unresolved_gate (layout : StationLayout)
    (instrs : List PathInstruction) (gid : String) (hne : gid ≠ "")
    (hmiss : getPointById layout gid = none) :
    generatePathPointsForMap layout instrs none = [] ∧
    generatePathPointsForMap layout instrs (some "") = [] ∧
    generatePathPointsForMap layout instrs (some gid) =
      annotatePoints (instrFlat layout instrs) := by
  refine ⟨rfl, rfl, ?_⟩
  rw [generatePathPointsForMap, flatPoints]
  rw [if_neg hne, hmiss]
  rfl

/-- Counterexample to claim C4 as stated: the unresolvable gate id
"bogus-gate" together with the authored route gate-a-platform-1 still
materializes the nine instruction points, not an empty path. -/
theorem generatePath_unresolved_gate_counterexample :
    getPointById mockStationLayout "bogus-gate" = none ∧
    (generatePathPointsForMap mockStationLayout gateAPlatform1
        (some "bogus-gate")).length = 9 := by
  constructor
  · rfl
  · rfl

theorem generatePath_unresolved_gate_witness :
    ("bogus-gate" ≠ "") ∧
    getPointById mockStationLayout "bogus-gate" = none ∧
    generatePathPointsForMap mockStationLayout gateAPlatform1
        (some "bogus-gate") =
      annotatePoints (instrFlat mockStationLayout gateAPlatform1) := by
  have hne : ("bogus-gate" : String) ≠ "" := by decide
  have hmiss : getPointById mockStationLayout "bogus-gate" = none := rfl
  exact ⟨hne, hmiss,
    (generatePath_unresolved_gate mockStationLayout gateAPlatform1
      "bogus-gate" hne hmiss).2.2⟩

/- ------------------------------------------------------------------
   Concrete evaluation of the authored route gate-a-platform-1.
   ------------------------------------------------------------------ -/

/-- The raw points of route gate-a-platform-1 in walk order. -/
def routeARaw : List StationPoint :=
  [gate_a, node_ga_1, node_ga_2, node_ga_wh_1, waiting_hall, node_wh_e1_1,
   escalator_1, node_e1_p1_1, node_e1_p1_2, platform_1]

/-- The geometric cumulative distance of route gate-a-platform-1 at
escalator-1 (its index-2 instruction's target), about 191.9 meters. -/
noncomputable def routeAEscCum : ℝ :=
  50 + Real.sqrt 2825 + Real.sqrt 325 + Real.sqrt 1250 + Real.sqrt 1250

/-- The geometric total length of route gate-a-platform-1, about 408.6
meters. -/
noncomputable def routeATotal : ℝ :=
  50 + Real.sqrt 2825 + Real.sqrt 325 + Real.sqrt 1250 + Real.sqrt 1250 +
    Real.sqrt 1700 + Real.sqrt 22625 + 25

/-- The ten cumulative distances assigned along route
gate-a-platform-1. -/
noncomputable def routeACums : List ℝ :=
  [0, 20, 50, 50 + Real.sqrt 2825, 50 + Real.sqrt 2825 + Real.sqrt 325,
   50 + Real.sqrt 2825 + Real.sqrt 325 + Real.sqrt 1250,
   50 + Real.sqrt 2825 + Real.sqrt 325 + Real.sqrt 1250 + Real.sqrt 1250,
   50 + Real.sqrt 2825 + Real.sqrt 325 + Real.sqrt 1250 + Real.sqrt 1250 +
     Real.sqrt 1700,
   50 + Real.sqrt 2825 + Real.sqrt 325 + Real.sqrt 1250 + Real.sqrt 1250 +
     Real.sqrt 1700 + Real.sqrt 22625,
   50 + Real.sqrt 2825 + Real.sqrt 325 + Real.sqrt 1250 + Real.sqrt 1250 +
     Real.sqrt 1700 + Real.sqrt 22625 + 25]

theorem routeA_flat :
    flatPoints mockStationLayout gateAPlatform1 (some "gate-a") =
      routeARaw.map addLatLng := rfl

theorem routeA_cums :
    cumulativeList (routeARaw.map addLatLng) = routeACums := by
  norm_num [cumulativeList, cumAux, routeARaw, routeACums, addLatLng,
    getDistanceBetweenPoints, gate_a, node_ga_1, node_ga_2, node_ga_wh_1,
    waiting_hall, node_wh_e1_1, escalator_1, node_e1_p1_1, node_e1_p1_2,
    platform_1, sqrt400, sqrt900, sqrt625]

/-- The ten materialized points of route gate-a-platform-1 with their
annotations. -/
noncomputable def routeAPoints : List StationPoint :=
  List.zipWith (fun p c => { p with cumulativeDistance := some c })
    (routeARaw.map addLatLng) routeACums

theorem routeA_points :
    generatePathPointsForMap mockStationLayout gateAPlatform1
      (some "gate-a") = routeAPoints := by
  rw [generatePathPointsForMap, routeA_flat]
  simp only [annotatePoints, routeA_cums]
  rfl

/-- The four instructions of route gate-a-platform-1 after
back-annotation. -/
noncomputable def routeAInstrs : List PathInstruction :=
  [⟨"inst1", "Walk straight from Entry Gate A for 20 meters.",
    "प्रवेश द्वार ए से 20 मीटर सीधा चलें।",
    "gate-a", "node-ga-2", some ["node-ga-1"], some 20, some 50⟩,
   ⟨"inst2", "Turn right towards Waiting Hall.",
    "प्रतीक्षा कक्ष की ओर दाहिने मुड़ें।",
    "node-ga-2", "waiting-hall", some ["node-ga-wh-1"], some 30,
    some (50 + Real.sqrt 2825 + Real.sqrt 325)⟩,
   ⟨"inst3", "Walk straight towards Escalator 1.",
    "एस्केलेटर 1 की ओर सीधा चलें।",
    "waiting-hall", "escalator-1", some ["node-wh-e1-1"], some 40,
    some routeAEscCum⟩,
   ⟨"inst4", "Use Escalator 1 to reach Platform 1.",
    "प्लेटफॉर्म 1 तक पहुंचने के लिए एस्केलेटर 1 का उपयोग करें।",
    "escalator-1", "platform-1", some ["node-e1-p1-1", "node-e1-p1-2"],
    some 50, some routeATotal⟩]

theorem routeA_instrs :
    annotateInstructions mockStationLayout gateAPlatform1 (some "gate-a") =
      routeAInstrs := by
  simp only [annotateInstructions, routeA_points]
  rfl

theorem sqrt2825_bounds : 53 ≤ Real.sqrt 2825 ∧ Real.sqrt 2825 ≤ 54 :=
  ⟨le_sqrt_of_sq (by norm_num) (by norm_num),
   sqrt_le_of_sq (by norm_num) (by norm_num)⟩

theorem sqrt325_bounds : 18 ≤ Real.sqrt 325 ∧ Real.sqrt 325 ≤ 19 :=
  ⟨le_sqrt_of_sq (by norm_num) (by norm_num),
   sqrt_le_of_sq (by norm_num) (by norm_num)⟩

theorem sqrt1250_bounds : 35 ≤ Real.sqrt 1250 ∧ Real.sqrt 1250 ≤ 36 :=
  ⟨le_sqrt_of_sq (by norm_num) (by norm_num),
   sqrt_le_of_sq (by norm_num) (by norm_num)⟩

theorem sqrt1700_bounds : 41 ≤ Real.sqrt 1700 ∧ Real.sqrt 1700 ≤ 42 :=
  ⟨le_sqrt_of_sq (by norm_num) (by norm_num),
   sqrt_le_of_sq (by norm_num) (by norm_num)⟩

theorem sqrt22625_bounds : 150 ≤ Real.sqrt 22625 ∧ Real.sqrt 22625 ≤ 151 :=
  ⟨le_sqrt_of_sq (by norm_num) (by norm_num),
   sqrt_le_of_sq (by norm_num) (by norm_num)⟩

theorem routeAEscCum_bounds : 191 ≤ routeAEscCum ∧ routeAEscCum ≤ 195 := by
  have h1 := sqrt2825_bounds
  have h2 := sqrt325_bounds
  have h3 := sqrt1250_bounds
  rw [routeAEscCum]
  constructor <;> linarith [h1.1, h1.2, h2.1, h2.2, h3.1, h3.2]

theorem routeATotal_bounds : 400 ≤ routeATotal ∧ routeATotal ≤ 413 := by
  have h1 := sqrt2825_bounds
  have h2 := sqrt325_bounds
  have h3 := sqrt1250_bounds
  have h4 := sqrt1700_bounds
  have h5 := sqrt22625_bounds
  rw [routeATotal]
  constructor <;>
    linarith [h1.1, h1.2, h2.1, h2.2, h3.1, h3.2, h4.1, h4.2, h5.1, h5.2]

/-- The simulator configuration produced for PNR 1234567890 (platform
1, coach S1 Seat 45) after selecting gate-a. -/
noncomputable def cfgA : SimConfig :=
  { pathPointsForMap :=
      generatePathPointsForMap mockStationLayout gateAPlatform1
        (some "gate-a")
    pathInstructions :=
      annotateInstructions mockStationLayout gateAPlatform1 (some "gate-a")
    language := .enUS
    platformNumber := "1"
    coachDetails := "S1, Seat 45" }

theorem totalPathLength_cfgA : totalPathLength cfgA = routeATotal := by
  rw [totalPathLength]
  simp only [cfgA, routeA_points]
  rfl

theorem cfgA_instrs : cfgA.pathInstructions = routeAInstrs := by
  simp only [cfgA, routeA_instrs]

theorem instructionAdvance_fst_of_miss (cfg : SimConfig) (acc : ℝ)
    (s1 : SimState) (inst : PathInstruction)
    (hinst : cfg.pathInstructions[s1.currentInstructionIdx]? = some inst)
    (cdt : ℝ) (hcdt : inst.cumulativeDistanceToTarget = some cdt)
    (hgt : ¬ cdt ≤ acc) :
    (instructionAdvance cfg acc s1).1 = s1 := by
  rw [instructionAdvance, hinst]
  simp only []
  rw [hcdt]
  simp only []
  rw [if_neg hgt]

theorem simStep_else_eval (cfg : SimConfig) (s : SimState)
    (hrun : s.running = true)
    (hlt : ¬ totalPathLength cfg ≤
      s.totalDistanceTraveled + distanceToAdvance) :
    simStep cfg s = instructionAdvance cfg
      (s.totalDistanceTraveled + distanceToAdvance)
      (positionUpdate cfg (s.totalDistanceTraveled + distanceToAdvance) s) := by
  rw [simStep, hrun]
  simp only [if_true]
  simp only [simulationTick]
  rw [if_neg hlt]

/-- The index-2 instruction of route gate-a-platform-1 after
back-annotation: its target escalator-1 lies at routeAEscCum meters. -/
noncomputable def routeAInstr3 : PathInstruction :=
  ⟨"inst3", "Walk straight towards Escalator 1.",
   "एस्केलेटर 1 की ओर सीधा चलें।",
   "waiting-hall", "escalator-1", some ["node-wh-e1-1"], some 40,
   some routeAEscCum⟩

theorem cfgA_instr2 : cfgA.pathInstructions[2]? = some routeAInstr3 := by
  rw [cfgA_instrs]
  rfl

/-- The simulator state before any walking has happened. -/
noncomputable def simStart0 : SimState :=
  { totalDistanceTraveled := 0
    currentInstructionIdx := 0
    userPosition := none
    userBearing := none
    running := false }

/-- Running state whose next tick lands exactly on accumulator 140. -/
noncomputable def simAt140 : SimState :=
  { totalDistanceTraveled := 1399 / 10
    currentInstructionIdx := 2
    userPosition := none
    userBearing := none
    running := true }

/-- Running state at accumulator 300 and instruction index 2. -/
noncomputable def simAt300 : SimState :=
  { totalDistanceTraveled := 300
    currentInstructionIdx := 2
    userPosition := none
    userBearing := none
    running := true }

/-- Running state at accumulator 413, past the total route length. -/
noncomputable def simAt413 : SimState :=
  { totalDistanceTraveled := 413
    currentInstructionIdx := 3
    userPosition := none
    userBearing := none
    running := true }

/-- Claim C5 (amended): the materialized path of route
gate-a-platform-1 is exactly the ten listed points; starting the
simulator (speed 2 m/s) on a fresh state reports instruction index 0
immediately and speaks instruction 0; the annotated thresholds are the
geometric cumulative distances (50, 50+sqrt(2825)+sqrt(325),
routeAEscCum of about 191.9 and routeATotal of about 408.6 — not the
authored 20/50/90/140); the index advances to 3 once the accumulator
passes routeAEscCum (not 140), and Completed is reached when the
accumulator reaches routeATotal (not 140). -/
theorem routeA_scenario :
    (generatePathPointsForMap mockStationLayout gateAPlatform1
        (some "gate-a")).map (fun p => p.id) =
      ["gate-a", "node-ga-1", "node-ga-2", "node-ga-wh-1", "waiting-hall",
       "node-wh-e1-1", "escalator-1", "node-e1-p1-1", "node-e1-p1-2",
       "platform-1"] ∧
    (startSimulation cfgA false false simStart0).1.currentInstructionIdx
      = 0 ∧
    (startSimulation cfgA false false simStart0).1.running = true ∧
    (startSimulation cfgA false false simStart0).2 =
      [SimEvent.spoke "Walk straight from Entry Gate A for 20 meters."
        VoiceLanguage.enUS] ∧
    cfgA.pathInstructions.map (fun i => i.cumulativeDistanceToTarget) =
      [some 50, some (50 + Real.sqrt 2825 + Real.sqrt 325),
       some routeAEscCum, some routeATotal] ∧
    totalPathLength cfgA = routeATotal ∧
    (∀ s : SimState, s.running = true → s.currentInstructionIdx = 2 →
      routeAEscCum ≤ s.totalDistanceTraveled + distanceToAdvance →
      s.totalDistanceTraveled + distanceToAdvance < routeATotal →
      (simStep cfgA s).1.currentInstructionIdx = 3) ∧
    (∀ s : SimState, s.running = true →
      routeATotal ≤ s.totalDistanceTraveled + distanceToAdvance →
      (simStep cfgA s).1.totalDistanceTraveled = routeATotal ∧
      (simStep cfgA s).1.running = false) := by
  refine ⟨rfl, rfl, rfl, rfl, by rw [cfgA_instrs]; rfl, totalPathLength_cfgA,
    ?_, ?_⟩
  · intro s h1 h2 h3 h4
    have hinst : cfgA.pathInstructions[s.currentInstructionIdx]? =
        some routeAInstr3 := by
      rw [h2]
      exact cfgA_instr2
    have hlt : s.totalDistanceTraveled + distanceToAdvance <
        totalPathLength cfgA := by
      rw [totalPathLength_cfgA]
      exact h4
    have := simStep_advance_idx cfgA s h1 hlt routeAInstr3 hinst
      routeAEscCum rfl h3
    rw [this, h2]
  · intro s h1 h2
    have hend : totalPathLength cfgA ≤
        s.totalDistanceTraveled + distanceToAdvance := by
      rw [totalPathLength_cfgA]
      exact h2
    have heval := simStep_completion_eval cfgA s h1 hend
    rw [heval]
    exact ⟨totalPathLength_cfgA, rfl⟩

theorem routeA_scenario_witness :
    simAt300.running = true ∧ simAt300.currentInstructionIdx = 2 ∧
    routeAEscCum ≤ simAt300.totalDistanceTraveled + distanceToAdvance ∧
    simAt300.totalDistanceTraveled + distanceToAdvance < routeATotal ∧
    (simStep cfgA simAt300).1.currentInstructionIdx = 3 ∧
    simAt413.running = true ∧
    routeATotal ≤ simAt413.totalDistanceTraveled + distanceToAdvance ∧
    (simStep cfgA simAt413).1.totalDistanceTraveled = routeATotal ∧
    (simStep cfgA simAt413).1.running = false := by
  have e1 : routeAEscCum ≤
      simAt300.totalDistanceTraveled + distanceToAdvance := by
    simp only [simAt300, distanceToAdvance, simulationSpeed,
      simulationIntervalDuration]
    linarith [routeAEscCum_bounds.2]
  have e2 : simAt300.totalDistanceTraveled + distanceToAdvance <
      routeATotal := by
    simp only [simAt300, distanceToAdvance, simulationSpeed,
      simulationIntervalDuration]
    linarith [routeATotal_bounds.1]
  have e3 : routeATotal ≤
      simAt413.totalDistanceTraveled + distanceToAdvance := by
    simp only [simAt413, distanceToAdvance, simulationSpeed,
      simulationIntervalDuration]
    linarith [routeATotal_bounds.2]
  have hadv := routeA_scenario.2.2.2.2.2.2.1 simAt300 rfl rfl e1 e2
  have hcomp := routeA_scenario.2.2.2.2.2.2.2 simAt413 rfl e3
  exact ⟨rfl, rfl, e1, e2, hadv, rfl, e3, hcomp.1, hcomp.2⟩

/-- Counterexample to claim C5 as stated: the instruction thresholds
and the total length of the materialized route are geometric and all
exceed 140, so at accumulator exactly 140 the simulator is still
running with instruction index 2 — it neither advances to index 3 at
140 nor completes at 140. -/
theorem routeA_140_counterexample :
    totalPathLength cfgA = routeATotal ∧
    (140 : ℝ) < routeATotal ∧
    cfgA.pathInstructions[2]? = some routeAInstr3 ∧
    routeAInstr3.cumulativeDistanceToTarget = some routeAEscCum ∧
    (140 : ℝ) < routeAEscCum ∧
    simAt140.totalDistanceTraveled + distanceToAdvance = 140 ∧
    (simStep cfgA simAt140).1.totalDistanceTraveled = 140 ∧
    (simStep cfgA simAt140).1.running = true ∧
    (simStep cfgA simAt140).1.currentInstructionIdx = 2 := by
  have h140 : simAt140.totalDistanceTraveled + distanceToAdvance = 140 := by
    simp only [simAt140, distanceToAdvance, simulationSpeed,
      simulationIntervalDuration]
    norm_num
  have hlt : ¬ totalPathLength cfgA ≤
      simAt140.totalDistanceTraveled + distanceToAdvance := by
    rw [totalPathLength_cfgA, h140, not_le]
    linarith [routeATotal_bounds.1]
  have helse := simStep_else_eval cfgA simAt140 rfl hlt
  have hpu := positionUpdate_frame cfgA
    (simAt140.totalDistanceTraveled + distanceToAdvance) simAt140
  have hinst : cfgA.pathInstructions[(positionUpdate cfgA
      (simAt140.totalDistanceTraveled + distanceToAdvance)
      simAt140).currentInstructionIdx]? = some routeAInstr3 := by
    rw [hpu.1]
    exact cfgA_instr2
  have hgt : ¬ routeAEscCum ≤
      simAt140.totalDistanceTraveled + distanceToAdvance := by
    rw [h140, not_le]
    linarith [routeAEscCum_bounds.1]
  have hfst : (simStep cfgA simAt140).1 = positionUpdate cfgA
      (simAt140.totalDistanceTraveled + distanceToAdvance) simAt140 := by
    rw [helse]
    exact instructionAdvance_fst_of_miss cfgA _ _ routeAInstr3 hinst
      routeAEscCum rfl hgt
  refine ⟨totalPathLength_cfgA, by linarith [routeATotal_bounds.1],
    cfgA_instr2, rfl, by linarith [routeAEscCum_bounds.1], h140, ?_, ?_, ?_⟩
  · rw [hfst, hpu.2.2, h140]
  · rw [hfst, hpu.2.1]
    rfl
  · rw [hfst, hpu.1]
    rfl

/- ------------------------------------------------------------------
   Claim C10: the materializer's writes to the shared topology table.
   ------------------------------------------------------------------ -/

theorem applyLastAssignment_id (pts : List StationPoint) (cums : List ℝ)
    (q : StationPoint) : (applyLastAssignment pts cums q).id = q.id := by
  rw [applyLastAssignment]
  split <;> rfl

theorem applyLastAssignment_x (pts : List StationPoint) (cums : List ℝ)
    (q : StationPoint) : (applyLastAssignment pts cums q).x = q.x := by
  rw [applyLastAssignment]
  split <;> rfl

theorem applyLastAssignment_y (pts : List StationPoint) (cums : List ℝ)
    (q : StationPoint) : (applyLastAssignment pts cums q).y = q.y := by
  rw [applyLastAssignment]
  split <;> rfl

theorem find?_id_map (ps : List StationPoint) (f : StationPoint → StationPoint)
    (hid : ∀ q, (f q).id = q.id) (i : String) :
    (ps.map f).find? (fun p => p.id == i) =
      (ps.find? (fun p => p.id == i)).map f := by
  rw [List.find?_map]
  have hpred : ((fun p => p.id == i) ∘ f) = (fun p => p.id == i) :=
    funext fun q => by simp [Function.comp, hid]
  rw [hpred]

theorem materializeLayout_getPointById (layout : StationLayout)
    (key : String) (gid : Option String) (instrs : List PathInstruction)
    (hlk : layout.paths.lookup key = some instrs) (i : String) :
    getPointById (materializeLayout layout key gid) i =
      (getPointById layout i).map
        (applyLastAssignment (flatPoints layout instrs gid)
          (cumulativeList (flatPoints layout instrs gid))) := by
  rw [materializeLayout, hlk]
  simp only []
  rw [getPointById, getPointById]
  exact find?_id_map layout.points _ (applyLastAssignment_id _ _) i

/-- The write performed on the shared table by materializing route
gate-a-platform-1 from gate-a. -/
noncomputable def routeAWrite : StationPoint → StationPoint :=
  applyLastAssignment (routeARaw.map addLatLng) routeACums

/-- The topology table right after materializing gate-a-platform-1. -/
noncomputable def layoutAfterA : StationLayout :=
  materializeLayout mockStationLayout "gate-a-platform-1" (some "gate-a")

/-- The topology table after materializing gate-a-platform-1 and then
gate-b-platform-1. -/
noncomputable def layoutAfterAB : StationLayout :=
  materializeLayout layoutAfterA "gate-b-platform-1" (some "gate-b")

theorem getPointById_afterA (i : String) :
    getPointById layoutAfterA i =
      (getPointById mockStationLayout i).map routeAWrite := by
  rw [layoutAfterA,
    materializeLayout_getPointById mockStationLayout "gate-a-platform-1"
      (some "gate-a") gateAPlatform1 rfl i,
    routeA_flat, routeA_cums]
  rfl

/-- The raw points of route gate-b-platform-1 in walk order. -/
def routeBRaw : List StationPoint :=
  [gate_b, node_gb_1, node_gb_s1_1, stairs_1, node_wh_e1_1, escalator_1,
   node_e1_p1_1, node_e1_p1_2, platform_1]

/-- The geometric cumulative distance of route gate-b-platform-1 at
escalator-1, about 312.8 meters. -/
noncomputable def routeBEscCum : ℝ :=
  150 + Real.sqrt 16250 + Real.sqrt 1250

/-- The nine cumulative distances assigned along route
gate-b-platform-1. -/
noncomputable def routeBCums : List ℝ :=
  [0, 20, 100, 150, 150 + Real.sqrt 16250,
   150 + Real.sqrt 16250 + Real.sqrt 1250,
   150 + Real.sqrt 16250 + Real.sqrt 1250 + Real.sqrt 1700,
   150 + Real.sqrt 16250 + Real.sqrt 1250 + Real.sqrt 1700 +
     Real.sqrt 22625,
   150 + Real.sqrt 16250 + Real.sqrt 1250 + Real.sqrt 1700 +
     Real.sqrt 22625 + 25]

theorem routeB_flat_afterA :
    flatPoints layoutAfterA gateBPlatform1 (some "gate-b") =
      routeBRaw.map (fun p => routeAWrite (addLatLng p)) := by
  simp [flatPoints, instrFlat, gateBPlatform1, getPointById_afterA,
    getPointById_mock, routeBRaw, rawStationPoints, gate_a, gate_b,
    platform_1, platform_2, platform_3, platform_4, waiting_hall,
    escalator_1, stairs_1, node_ga_1, node_ga_2, node_ga_wh_1, node_wh_e1_1,
    node_e1_p1_1, node_e1_p1_2, node_e1_p2_1, node_e1_p2_2, node_wh_s1_1,
    node_s1_p3_1, node_s1_p3_2, node_s1_p4_1, node_s1_p4_2, node_gb_1,
    node_gb_s1_1, List.find?]

theorem routeB_cums :
    cumulativeList (routeBRaw.map (fun p => routeAWrite (addLatLng p))) =
      routeBCums := by
  norm_num [cumulativeList, cumAux, routeBRaw, routeBCums, routeAWrite,
    applyLastAssignment_x, applyLastAssignment_y, addLatLng,
    getDistanceBetweenPoints, gate_b, node_gb_1, node_gb_s1_1, stairs_1,
    node_wh_e1_1, escalator_1, node_e1_p1_1, node_e1_p1_2, platform_1,
    sqrt400, sqrt6400, sqrt2500, sqrt625]

/-- Claim C10: generatePathPointsForMap writes through the shared point
objects of the global table.  In general (first two conjuncts), after
materializing any stored route, a point not participating in it is left
exactly as it was — annotations are never cleared — and every
participating point holds the value of its last assignment.
Concretely: after route gate-a-platform-1, escalator-1 holds its
cumulative distance on that route; after then materializing route
gate-b-platform-1, the shared escalator-1 object holds the second
route's (different) value, while node-ga-1 — absent from the second
route — still holds 20 from the first route even though the pristine
table had no annotation at all; the first route's instruction objects
likewise keep their target distances. -/
theorem materializeLayout_mutation :
    (∀ (layout : StationLayout) (key : String) (gid : Option String)
        (instrs : List PathInstruction),
        layout.paths.lookup key = some instrs →
        ∀ i : String,
          (lastAssignment (flatPoints layout instrs gid)
              (cumulativeList (flatPoints layout instrs gid)) i = none →
            getPointById (materializeLayout layout key gid) i =
              getPointById layout i) ∧
          (∀ c : ℝ, lastAssignment (flatPoints layout instrs gid)
              (cumulativeList (flatPoints layout instrs gid)) i = some c →
            getPointById (materializeLayout layout key gid) i =
              (getPointById layout i).map
                (fun p => { p with cumulativeDistance := some c }))) ∧
    (getPointById layoutAfterA "escalator-1").bind
        (fun p => p.cumulativeDistance) = some routeAEscCum ∧
    (getPointById layoutAfterAB "escalator-1").bind
        (fun p => p.cumulativeDistance) = some routeBEscCum ∧
    (getPointById layoutAfterAB "node-ga-1").bind
        (fun p => p.cumulativeDistance) = some 20 ∧
    (getPointById mockStationLayout "node-ga-1").bind
        (fun p => p.cumulativeDistance) = none ∧
    layoutAfterAB.paths.lookup "gate-a-platform-1" = some routeAInstrs := by
  refine ⟨?_, ?_, ?_, ?_, rfl, ?_⟩
  · intro layout key gid instrs hlk i
    constructor
    · intro hnone
      rw [materializeLayout_getPointById layout key gid instrs hlk i]
      cases hf : getPointById layout i with
      | none => rfl
      | some p =>
        rw [getPointById] at hf
        have hp := List.find?_some hf
        have hpid : p.id = i := by
          simpa using hp
        rw [Option.map_some', applyLastAssignment, hpid, hnone]
    · intro c hsome
      rw [materializeLayout_getPointById layout key gid instrs hlk i]
      cases hf : getPointById layout i with
      | none => rfl
      | some p =>
        rw [getPointById] at hf
        have hp := List.find?_some hf
        have hpid : p.id = i := by
          simpa using hp
        rw [Option.map_some', Option.map_some', applyLastAssignment, hpid,
          hsome]
  · rw [getPointById_afterA]
    rfl
  · rw [layoutAfterAB,
      materializeLayout_getPointById layoutAfterA "gate-b-platform-1"
        (some "gate-b") gateBPlatform1 rfl "escalator-1",
      routeB_flat_afterA, routeB_cums, getPointById_afterA]
    rfl
  · rw [layoutAfterAB,
      materializeLayout_getPointById layoutAfterA "gate-b-platform-1"
        (some "gate-b") gateBPlatform1 rfl "node-ga-1",
      routeB_flat_afterA, routeB_cums, getPointById_afterA]
    rfl
  · have h : layoutAfterAB.paths.lookup "gate-a-platform-1" =
        some (annotateInstructions mockStationLayout gateAPlatform1
          (some "gate-a")) := rfl
    rw [h, routeA_instrs]

theorem materializeLayout_mutation_witness :
    mockStationLayout.paths.lookup "gate-a-platform-1" =
      some gateAPlatform1 ∧
    lastAssignment
      (flatPoints mockStationLayout gateAPlatform1 (some "gate-a"))
      (cumulativeList
        (flatPoints mockStationLayout gateAPlatform1 (some "gate-a")))
      "node-gb-1" = none ∧
    getPointById (materializeLayout mockStationLayout "gate-a-platform-1"
        (some "gate-a")) "node-gb-1" =
      getPointById mockStationLayout "node-gb-1" := by
  have hlk : mockStationLayout.paths.lookup "gate-a-platform-1" =
      some gateAPlatform1 := rfl
  have hnone : lastAssignment
      (flatPoints mockStationLayout gateAPlatform1 (some "gate-a"))
      (cumulativeList
        (flatPoints mockStationLayout gateAPlatform1 (some "gate-a")))
      "node-gb-1" = none := rfl
  exact ⟨hlk, hnone,
    (materializeLayout_mutation.1 mockStationLayout "gate-a-platform-1"
      (some "gate-a") gateAPlatform1 hlk "node-gb-1").1 hnone⟩
